import Mathlib

/-!
# Verification of the Kaiwa Reddit Scout pipeline core

Shallow embedding of the pipeline core of the `Kaiwa-reddit-scout` repository
(keyword filter, signal scorer, response generator, CSV dedup sink, JSON
extraction) together with proofs of the behavioural claims about it.

Conventions used throughout:
* Python strings are `String`; Python `Optional[T]` is `Option T`.
* Python `kw in text` (substring test) is `pyContains`.
* The external inference backend (`GeminiClient`) is modelled as an explicit
  environment of pure functions (prompt -> optional response text), and
  `json.loads` of the scorer/generator responses is modelled as abstract
  decoder functions into typed records.  `none` stands for any failure that
  the Python code catches (JSONDecodeError or any other exception): in every
  such case the source returns a value instead of raising, so the embedded
  functions are total.
* Mutation of `Lead` objects in place is modelled by returning updated copies.
-/

namespace Scout

/-!
### Python string primitives

The embedding works on the character lists underlying `String` (the built-in
`String` operations do not reduce inside the kernel, and every definition
here is meant to be evaluable on concrete inputs).  Each helper models the
Python string operation named in its doc comment.
-/

/-- Auxiliary scan for `pyContains`: does `pat` occur as a contiguous block
somewhere in the character list? -/
def containsAux (pat : List Char) : List Char → Bool
  | [] => pat.isEmpty
  | c :: rest => pat.isPrefixOf (c :: rest) || containsAux pat rest

/-- Python `pat in s` substring containment on strings (used by the keyword
matchers, `kw in text_lower`). -/
def pyContains (s pat : String) : Bool :=
  containsAux pat.data s.data

/-- Python `s.lower()`.  ASCII case folding; the non-ASCII characters
appearing in the data considered here are already caseless or lowercase. -/
def pyLower (s : String) : String :=
  String.mk (s.data.map Char.toLower)

/-- Python slicing `s[:n]` (by code points). -/
def pyTake (s : String) (n : Nat) : String :=
  String.mk (s.data.take n)

/-- Python `s.strip()` (ASCII whitespace; the Python version also strips
rare unicode spaces, which do not occur in the inputs considered). -/
def pyTrim (s : String) : String :=
  String.mk (((s.data.dropWhile Char.isWhitespace).reverse.dropWhile
    Char.isWhitespace).reverse)

/-- Python `s.startswith(pat)`. -/
def pyStartsWith (s pat : String) : Bool :=
  pat.data.isPrefixOf s.data

/-- Python `sep.join(xs)`. -/
def pyJoin (sep : String) : List String → String
  | [] => ""
  | [x] => x
  | x :: y :: rest => x ++ sep ++ pyJoin sep (y :: rest)

/-- Fuel-driven worker for `pySplit`; the fuel is an upper bound on the
number of characters consumed, so with fuel `length` the middle case is
never reached for a nonempty separator. -/
def pySplitAux (sep : List Char) : Nat → List Char → List Char → List (List Char)
  | _, [], acc => [acc.reverse]
  | 0, c :: rest, acc => [acc.reverse ++ c :: rest]
  | fuel + 1, c :: rest, acc =>
    if sep.isPrefixOf (c :: rest) then
      acc.reverse :: pySplitAux sep fuel ((c :: rest).drop sep.length) []
    else
      pySplitAux sep fuel rest (c :: acc)

/-- Python `s.split(sep)` for a nonempty separator: the chunks between
occurrences of `sep`, scanned left to right; always at least one chunk. -/
def pySplit (s sep : String) : List String :=
  (pySplitAux sep.data s.data.length s.data []).map String.mk

/-! ## `src/config/keywords.py` -/

/-- `SUPPORTED_LANGUAGES` from `src/config/keywords.py`. -/
def SUPPORTED_LANGUAGES : List String :=
  ["japanese", "spanish", "french", "german", "italian", "portuguese",
   "korean", "chinese", "mandarin", "hindi", "russian", "vietnamese",
   "dutch", "filipino", "tagalog", "indonesian", "turkish"]

/-- `TRIGGER_KEYWORDS` from `src/config/keywords.py`: the generated
language-specific patterns followed by the literal keyword groups, in source
order. -/
def TRIGGER_KEYWORDS : List String :=
  (SUPPORTED_LANGUAGES.map (fun lang => "speak " ++ lang)) ++
  (SUPPORTED_LANGUAGES.map (fun lang => "learning " ++ lang)) ++
  (SUPPORTED_LANGUAGES.map (fun lang => "best way to learn " ++ lang)) ++
  (SUPPORTED_LANGUAGES.map (fun lang => "fluency in " ++ lang)) ++
  (SUPPORTED_LANGUAGES.map (fun lang => "practice speaking " ++ lang)) ++
  (SUPPORTED_LANGUAGES.map (fun lang => "become conversational in " ++ lang)) ++
  (SUPPORTED_LANGUAGES.map (fun lang => "conversational " ++ lang)) ++
  ["afraid to speak",
   "scared to speak",
   "scared to talk",
   "nervous to speak",
   "anxiety when speaking",
   "speaking anxiety",
   "freeze up",
   "freeze up speaking",
   "freezing up",
   "blank out",
   "mind goes blank",
   "too shy",
   "embarrassed to speak",
   "frustrated",
   "overwhelmed",
   "losing motivation",
   "want to give up",
   "giving up",
   "stuck at",
   "hit a wall",
   "plateau",
   "moving to",
   "relocating to",
   "going to move",
   "in-laws",
   "in laws",
   "partner's family",
   "partners family",
   "spouse's family",
   "boyfriend's family",
   "girlfriend's family",
   "meeting family",
   "job interview",
   "work trip",
   "business meeting",
   "business trip",
   "need to learn fast",
   "need to learn quickly",
   "deadline",
   "before i move",
   "before moving",
   "duolingo isn't working",
   "duolingo doesn't work",
   "duolingo not helping",
   "quit duolingo",
   "beyond duolingo",
   "apps don't help",
   "apps aren't helping",
   "textbook isn't helping",
   "still can't speak",
   "can't speak",
   "can read but can't speak",
   "understand but can't speak",
   "years of studying",
   "studied for years",
   "been learning for",
   "learning for months",
   "learning for years",
   "heritage speaker",
   "lost my language",
   "can't speak to relatives",
   "in-laws don't speak",
   "bilingual couple",
   "language barrier relationship",
   "conversational fluency",
   "conversation practice",
   "speaking practice",
   "speaking partner",
   "conversation partner",
   "language partner",
   "native speaker",
   "real conversations",
   "actual conversations",
   "practical speaking",
   "everyday conversation",
   "daily conversation",
   "survival phrases",
   "need to speak",
   "want to speak",
   "improve my speaking",
   "practice speaking",
   "intermediate",
   "upper intermediate",
   "advanced but",
   "b1",
   "b2",
   "c1",
   "conversational level",
   "can hold a conversation"]

/-- `EXCLUDE_KEYWORDS` from `src/config/keywords.py`. -/
def EXCLUDE_KEYWORDS : List String :=
  ["jlpt",
   "n1",
   "n2",
   "n3",
   "n4",
   "n5",
   "hsk",
   "topik",
   "dele",
   "delf",
   "dalf",
   "goethe",
   "telc",
   "cils",
   "celi",
   "toefl",
   "ielts",
   "test prep",
   "exam prep",
   "passing the",
   "pass the exam",
   "homework",
   "assignment",
   "class assignment",
   "school project",
   "university course",
   "college course",
   "quiz",
   "final exam",
   "midterm",
   "grade",
   "grading",
   "professor",
   "teacher said",
   "translate this",
   "what does this mean",
   "help me translate",
   "can someone translate",
   "translation help",
   "what does this say",
   "how do you say",
   "anime",
   "manga",
   "light novel",
   "visual novel",
   "drama",
   "kdrama",
   "cdrama",
   "jdrama",
   "subtitles",
   "watch without subs",
   "raw anime",
   "webtoon",
   "tattoo",
   "song lyrics",
   "lyrics translation",
   "game translation",
   "meme",
   "joke translation",
   "best textbook",
   "textbook recommendation",
   "anki deck",
   "flashcard",
   "grammar guide",
   "what app",
   "which app",
   "youtube channel",
   "podcast recommendation"]

/-- `has_trigger_keyword(text)` from `src/config/keywords.py`: lowercase the
text, collect every trigger keyword occurring in it (list-comprehension
order), and report whether any matched. -/
def has_trigger_keyword (text : String) : Bool × List String :=
  let text_lower := pyLower text
  let matched := TRIGGER_KEYWORDS.filter (fun kw => pyContains text_lower kw)
  (matched.length > 0, matched)

/-- `has_exclude_keyword(text)` from `src/config/keywords.py`. -/
def has_exclude_keyword (text : String) : Bool × List String :=
  let text_lower := pyLower text
  let matched := EXCLUDE_KEYWORDS.filter (fun kw => pyContains text_lower kw)
  (matched.length > 0, matched)

/-! ## `src/config/languages.py` (the part used by the filter) -/

/-- One entry of the `LANGUAGES` table of `src/config/languages.py`
(subreddit lists omitted: the filter only reads names). -/
structure Language where
  code : String
  name : String
  native_name : String
deriving Repr, DecidableEq

/-- The `LANGUAGES` entries for the `PRIORITY_LANGUAGES`
(`["fr", "en", "es", "ja", "de", "zh", "ko"]`) in priority order, which is
the only part of the table `detect_language` consults. -/
def priorityLanguageTable : List Language :=
  [⟨"fr", "French", "Français"⟩,
   ⟨"en", "English", "English"⟩,
   ⟨"es", "Spanish", "Español"⟩,
   ⟨"ja", "Japanese", "日本語"⟩,
   ⟨"de", "German", "Deutsch"⟩,
   ⟨"zh", "Chinese", "中文"⟩,
   ⟨"ko", "Korean", "한국어"⟩]

/-- `detect_language(text)` from `src/config/languages.py`: scan the priority
languages in order and return the first whose (lowercased) name or native
name occurs in the lowercased text. -/
def detect_language (text : String) : Option String :=
  let text_lower := pyLower text
  (priorityLanguageTable.find? (fun lang =>
    pyContains text_lower (pyLower lang.name) ||
    pyContains text_lower (pyLower lang.native_name))).map (·.code)

/-! ## `src/storage/models.py` -/

/-- `RedditPost` from `src/storage/models.py` (timestamps and counters kept
as plain numbers; `created_utc` is not consulted by any claim). -/
structure RedditPost where
  id : String
  subreddit : String
  author : String
  title : String
  selftext : String
  url : String
  permalink : String
  created_utc : Int
  score : Int
  num_comments : Int
deriving Repr, DecidableEq

/-- `RedditPost.full_text`: `f"{self.title} {self.selftext}"`. -/
def RedditPost.full_text (p : RedditPost) : String :=
  p.title ++ " " ++ p.selftext

/-- `RedditPost.direct_url`: `f"https://reddit.com{self.permalink}"`. -/
def RedditPost.direct_url (p : RedditPost) : String :=
  "https://reddit.com" ++ p.permalink

/-- `RedditPost.message_url`: DM composition URL for the author. -/
def RedditPost.message_url (p : RedditPost) : String :=
  "https://reddit.com/message/compose/?to=" ++ p.author

/-- `Lead` from `src/storage/models.py`.  `datetime` fields are dropped
(no claim reads them); the AI-analysis fields use `Option` for Python
`None`. -/
structure Lead where
  post_id : String
  subreddit : String
  author : String
  title : String
  body : String
  post_url : String
  message_url : String
  matched_triggers : List String := []
  language_detected : Option String := none
  score : Int := 0
  num_comments : Int := 0
  signal_score : Option Int := none
  signal_type : Option String := none
  category : Option String := none
  comment_worthy : Option Bool := none
  comment_worthy_reason : Option String := none
  public_draft : Option String := none
  dm_draft : Option String := none
  status : String := "new"
deriving Repr, DecidableEq

/-- `Lead.from_post` from `src/storage/models.py`. -/
def Lead.from_post (post : RedditPost) (matched_triggers : List String)
    (language_detected : Option String := none) : Lead :=
  { post_id := post.id
    subreddit := post.subreddit
    author := post.author
    title := post.title
    body := post.selftext
    post_url := post.direct_url
    message_url := post.message_url
    matched_triggers := matched_triggers
    language_detected := language_detected
    score := post.score
    num_comments := post.num_comments }

/-! ## `src/scraper/keyword_filter.py` -/

/-- `FilterResult` from `src/scraper/keyword_filter.py`. -/
structure FilterResult where
  post : RedditPost
  passed : Bool
  matched_triggers : List String
  matched_excludes : List String
  language_detected : Option String
  reason : String
deriving Repr, DecidableEq

/-- The `self.stats` counter dictionary of `KeywordFilter`. -/
structure FilterStats where
  total : Nat := 0
  passed : Nat := 0
  no_trigger : Nat := 0
  excluded : Nat := 0
  deleted_author : Nat := 0
deriving Repr, DecidableEq

/-- `KeywordFilter.filter_post` from `src/scraper/keyword_filter.py`, with the
constructor defaults `require_trigger=True, exclude_on_match=True` as
explicit arguments and the mutation of `self.stats` made explicit: the
function maps the pre-state of the counters and the post to the post-state
and the `FilterResult`. -/
def filter_post (require_trigger exclude_on_match : Bool)
    (stats : FilterStats) (post : RedditPost) : FilterStats × FilterResult :=
  let stats := { stats with total := stats.total + 1 }
  let text := post.full_text
  if post.author = "[deleted]" then
    ({ stats with deleted_author := stats.deleted_author + 1 },
     { post := post, passed := false, matched_triggers := [],
       matched_excludes := [], language_detected := none,
       reason := "deleted_author" })
  else
    let (has_exclude, excludes) := has_exclude_keyword text
    if exclude_on_match && has_exclude then
      ({ stats with excluded := stats.excluded + 1 },
       { post := post, passed := false, matched_triggers := [],
         matched_excludes := excludes, language_detected := none,
         reason := "excluded: " ++ pyJoin ", " (excludes.take 3) })
    else
      let (has_trigger, triggers) := has_trigger_keyword text
      if require_trigger && !has_trigger then
        ({ stats with no_trigger := stats.no_trigger + 1 },
         { post := post, passed := false, matched_triggers := [],
           matched_excludes := [], language_detected := none,
           reason := "no_trigger" })
      else
        let language := detect_language text
        ({ stats with passed := stats.passed + 1 },
         { post := post, passed := true, matched_triggers := triggers,
           matched_excludes := excludes, language_detected := language,
           reason := "passed" })

/-! ## `src/storage/csv_storage.py`

The CSV file is modelled as the list of appended rows.  `to_csv_row` copies
`post_url` through unchanged and the dedup logic reads back only the
`post_url` column, so a stored row is represented by the `Lead` it was
written from. -/

/-- Extraction of a post id from a stored URL, as in
`CSVStorage.get_existing_post_ids`:
`parts = url.split("/comments/"); if len(parts) > 1: parts[1].split("/")[0]`.
Both `pySplit` and Python `str.split(sep)` return the list of chunks
between occurrences of the separator, never empty, so the embedding matches
the source line for line. -/
def extractPostId (url : String) : Option String :=
  let parts := pySplit url "/comments/"
  if parts.length > 1 then
    some (pySplit ((parts.get? 1).getD "") "/").head!
  else
    none

/-- `CSVStorage.get_existing_post_ids`: the set of ids recoverable from the
stored `post_url` fields (kept as a list; only membership is used). -/
def get_existing_post_ids (store : List Lead) : List String :=
  store.filterMap (fun row => extractPostId row.post_url)

/-- Result of `CSVStorage.save_leads`: the grown store plus the returned
`{"saved": ..., "skipped": ...}` statistics. -/
structure SaveResult where
  store : List Lead
  saved : Nat
  skipped : Nat
deriving Repr, DecidableEq

/-- The `for lead in leads:` loop body of `CSVStorage.save_leads`:
skip (and count) a lead whose `post_id` is in `existing`, else append its row
and add its id to `existing`. -/
def saveLeadsLoop (existing : List String) (acc : SaveResult) :
    List Lead → SaveResult
  | [] => acc
  | lead :: rest =>
    if lead.post_id ∈ existing then
      saveLeadsLoop existing { acc with skipped := acc.skipped + 1 } rest
    else
      saveLeadsLoop (existing ++ [lead.post_id])
        { acc with store := acc.store ++ [lead], saved := acc.saved + 1 } rest

/-- `CSVStorage.save_leads`: recompute the existing-id set from the store,
then run the append loop. -/
def save_leads (store : List Lead) (leads : List Lead) : SaveResult :=
  saveLeadsLoop (get_existing_post_ids store)
    { store := store, saved := 0, skipped := 0 } leads

/-! ## `src/analyzer/signal_scorer.py` and `src/analyzer/response_generator.py`

The inference backend is abstracted as an environment of pure functions:
`respond prompt maxTokens` models `client.generate_json` (returning the
response text or `none` for any adapter failure) and the `decode*` fields
model `json.loads` of that text shaped into the record the caller reads.
`decode* r = none` models every exception path the source catches
(`json.JSONDecodeError` as well as the generic `except Exception` raised
when the parsed value does not have the expected shape), all of which lead
to the same fallback in the source. -/

/-- A parsed scoring record, i.e. one JSON object as read by
`result.get("id"/"score"/"signal_type"/"category", default)`.  A `none`
field stands for an absent key (the `dict.get` default is then used). -/
structure ScoreRec where
  id : Option String := none
  score : Option Int := none
  signal_type : Option String := none
  category : Option String := none
deriving Repr, DecidableEq

/-- A parsed worthiness record, one JSON object as read by
`result.get("worthy", True)` / `result.get("reason", ...)`. -/
structure WorthyRec where
  worthy : Option Bool := none
  reason : Option String := none
deriving Repr, DecidableEq

/-- The inference environment seen by `SignalScorer` and
`ResponseGenerator`: configuration flag plus pure response/decoding
functions. -/
structure InferenceEnv where
  configured : Bool
  /-- `client.generate_json(prompt, max_tokens)` (scoring / worthiness). -/
  respond : String → Nat → Option String
  /-- `client.generate(prompt, max_tokens, model)` (draft generation). -/
  generate : String → Nat → String → Option String
  /-- `json.loads` of a single-lead scoring response, shaped as the fields
  the caller reads. -/
  decodeSingle : String → Option ScoreRec
  /-- `json.loads` of a batch scoring response; `none` also covers a parsed
  value that is not an array of objects (the comprehension
  `{r.get("id"): r for r in results}` then raises, which the source catches
  with the same fallback). -/
  decodeBatch : String → Option (List ScoreRec)
  /-- `json.loads` of a worthiness response. -/
  decodeWorthy : String → Option WorthyRec

/-- Python truthiness test `if not response:` on an `Optional[str]`:
`None` and the empty string are both falsy. -/
def isFalsy (r : Option String) : Bool :=
  match r with
  | none => true
  | some s => s = ""

/-! ### Prompt construction

The prompt templates are the `.format`-rendered versions of the module-level
template strings of `signal_scorer.py` / `response_generator.py` (Python
`{{`/`}}` render as literal braces, written `\x7b`/`\x7d` here). -/

/-- `SCORING_PROMPT.format(subreddit=..., title=..., body=..., triggers=...)`
from `src/analyzer/signal_scorer.py`. -/
def SCORING_PROMPT_rendered (subreddit title body triggers : String) : String :=
  "You are analyzing a Reddit post to determine if this person is a good lead for Kaiwa, a language learning app that helps people practice speaking with AI tutors.\n\n" ++
  "Analyze the following post and rate it as a potential lead.\n\n" ++
  "POST DETAILS:\n" ++
  "- Subreddit: r/" ++ subreddit ++ "\n" ++
  "- Title: " ++ title ++ "\n" ++
  "- Body: " ++ body ++ "\n" ++
  "- Matched keywords: " ++ triggers ++ "\n\n" ++
  "SCORING CRITERIA (with adjustments for urgency and willingness to pay):\n" ++
  "- BASE SCORE: Start with psychological need assessment\n" ++
  "- +3 POINTS if mentions job/relocation/visa requirement (high urgency, high stakes)\n" ++
  "- +2 POINTS if mentions tutor costs or paid alternatives (price-conscious, willing to pay)\n" ++
  "- +2 POINTS if mentions embarrassment/anxiety in real situations (emotional pain)\n" ++
  "- -5 POINTS if asks for \"free\" resources or alternatives (will never pay)\n\n" ++
  "FINAL SCORE:\n" ++
  "- Score 8-10 (HIGH): Strong speaking anxiety OR urgent deadline (job/relocation) OR willing to pay. Actively seeking solutions.\n" ++
  "- Score 5-7 (MEDIUM): Some speaking challenges but no urgency or payment willingness signals.\n" ++
  "- Score 1-4 (LOW): General learning, free hunters, or unlikely to benefit from speaking practice app.\n\n" ++
  "CATEGORIES (pick the most relevant):\n" ++
  "- \"Speaking Anxiety\" - Fear of speaking, nervousness, embarrassment\n" ++
  "- \"Practice Gap\" - Lacks conversation partners or practice opportunities\n" ++
  "- \"Immersion Prep\" - Moving abroad, meeting in-laws, travel upcoming\n" ++
  "- \"Plateau Frustration\" - Stuck at a level, not progressing\n" ++
  "- \"App Fatigue\" - Frustrated with current apps like Duolingo\n" ++
  "- \"General Learning\" - General language learning discussion\n\n" ++
  "Respond with ONLY a JSON object in this exact format:\n" ++
  "\x7b\"score\": <1-10>, \"signal_type\": \"<HIGH|MEDIUM|LOW>\", \"category\": \"<category>\", \"reasoning\": \"<brief explanation>\"\x7d\n"

/-- The scoring prompt for one lead as built in `SignalScorer.score_lead`
(body truncated to 1000 characters, triggers joined with `", "`). -/
def scoringPrompt (lead : Lead) : String :=
  SCORING_PROMPT_rendered lead.subreddit lead.title (pyTake lead.body 1000)
    (pyJoin ", " lead.matched_triggers)

/-- One hex digit, for the `\uXXXX` escapes of `json.dumps`. -/
def hexDigit (n : Nat) : Char :=
  if n < 10 then Char.ofNat ('0'.toNat + n)
  else Char.ofNat ('a'.toNat + (n - 10))

/-- Four-digit hex rendering of a code point, as in `\uXXXX`. -/
def hex4 (n : Nat) : String :=
  String.mk [hexDigit (n / 4096 % 16), hexDigit (n / 256 % 16),
             hexDigit (n / 16 % 16), hexDigit (n % 16)]

/-- `json.dumps` escaping of one character (default `ensure_ascii=True`). -/
def pyJsonEscapeChar (c : Char) : String :=
  if c = '"' then "\\\""
  else if c = '\\' then "\\\\"
  else if c = '\n' then "\\n"
  else if c = '\t' then "\\t"
  else if c = '\r' then "\\r"
  else if c.toNat < 32 then "\\u" ++ hex4 c.toNat
  else if c.toNat < 127 then String.mk [c]
  else "\\u" ++ hex4 c.toNat

/-- A JSON string literal as produced by `json.dumps` (code points beyond the
basic multilingual plane, which would need surrogate pairs, do not occur in
the data considered here). -/
def pyJsonStr (s : String) : String :=
  "\"" ++ pyJoin "" (s.data.map pyJsonEscapeChar) ++ "\""

/-- One entry of the `posts_data` array built in `SignalScorer._score_batch`,
rendered as `json.dumps(..., indent=2)` renders a dict nested in a list. -/
def postStubJson (lead : Lead) : String :=
  "  \x7b\n" ++
  "    \"id\": " ++ pyJsonStr lead.post_id ++ ",\n" ++
  "    \"subreddit\": " ++ pyJsonStr lead.subreddit ++ ",\n" ++
  "    \"title\": " ++ pyJsonStr lead.title ++ ",\n" ++
  "    \"body\": " ++ pyJsonStr (pyTake lead.body 500) ++ ",\n" ++
  "    \"triggers\": " ++ pyJsonStr (pyJoin ", " (lead.matched_triggers.take 5)) ++ "\n" ++
  "  \x7d"

/-- `json.dumps(posts_data, indent=2)` for the list of post stubs. -/
def postsJson (leads : List Lead) : String :=
  if leads.isEmpty then "[]"
  else "[\n" ++ pyJoin ",\n" (leads.map postStubJson) ++ "\n]"

/-- `BATCH_SCORING_PROMPT.format(posts_json=...)` from
`src/analyzer/signal_scorer.py`. -/
def BATCH_SCORING_PROMPT_rendered (posts_json : String) : String :=
  "You are analyzing multiple Reddit posts to determine if these people are good leads for Kaiwa, a language learning app that helps people practice speaking with AI tutors.\n\n" ++
  "Analyze each post and rate it as a potential lead.\n\n" ++
  "SCORING CRITERIA (adjust for urgency and willingness to pay):\n" ++
  "- +3 POINTS for job/relocation/visa urgency\n" ++
  "- +2 POINTS for tutor cost complaints (willing to pay)\n" ++
  "- +2 POINTS for anxiety/embarrassment in real situations\n" ++
  "- -5 POINTS for \"free\" resource requests (will never pay)\n\n" ++
  "SCORES:\n" ++
  "- 8-10 (HIGH): Speaking anxiety OR urgent deadline OR willing to pay\n" ++
  "- 5-7 (MEDIUM): Some challenges but no urgency/payment signals\n" ++
  "- 1-4 (LOW): General learning or free hunters\n\n" ++
  "CATEGORIES: \"Speaking Anxiety\", \"Practice Gap\", \"Immersion Prep\", \"Plateau Frustration\", \"App Fatigue\", \"General Learning\"\n\n" ++
  "POSTS TO ANALYZE:\n" ++
  posts_json ++ "\n\n" ++
  "Respond with ONLY a JSON array containing one object per post, in the same order:\n" ++
  "[\x7b\"id\": \"<post_id>\", \"score\": <1-10>, \"signal_type\": \"<HIGH|MEDIUM|LOW>\", \"category\": \"<category>\", \"reasoning\": \"<brief explanation>\"\x7d, ...]\n"

/-- The batch scoring prompt for a group of leads, as built in
`SignalScorer._score_batch`. -/
def batchPrompt (leads : List Lead) : String :=
  BATCH_SCORING_PROMPT_rendered (postsJson leads)

/-! ### The scorer itself -/

/-- The three field updates applied to a lead from a parsed scoring record:
`lead.signal_score = result.get("score", 5)` etc. -/
def applyScoreRec (lead : Lead) (r : ScoreRec) : Lead :=
  { lead with
    signal_score := some (r.score.getD 5)
    signal_type := some (r.signal_type.getD "MEDIUM")
    category := some (r.category.getD "General Learning") }

/-- `SignalScorer.score_lead`: score a single lead.  Returns the lead
unchanged when the client is not configured, when the response is falsy, or
when parsing fails (every exception is caught in the source, so the
embedding is a total function — nothing propagates to the caller). -/
def score_lead (env : InferenceEnv) (lead : Lead) : Lead :=
  if !env.configured then lead
  else
    match env.respond (scoringPrompt lead) 1024 with
    | none => lead
    | some r =>
      if r = "" then lead   -- `if not response: return lead`
      else
        match env.decodeSingle r with
        | none => lead      -- JSONDecodeError / any exception: caught
        | some rec => applyScoreRec lead rec

/-- The `results_map = {r.get("id"): r for r in results}` dictionary of
`_score_batch`, looked up at `lead.post_id`: with Python dict semantics a
later record with the same id overwrites an earlier one, so the lookup
returns the last matching record. -/
def resultsMapFind (rs : List ScoreRec) (pid : String) : Option ScoreRec :=
  (rs.filter (fun r => r.id = some pid)).getLast?

/-- `SignalScorer._score_batch`: one grouped inference call.  On a falsy
response or a response that does not parse as an array of records, every
lead of the group falls back to `score_lead`; otherwise each lead whose id
appears in the results map is updated in place and the others pass through
unchanged. -/
def score_batch (env : InferenceEnv) (leads : List Lead) : List Lead :=
  if leads.isEmpty then leads
  else
    match env.respond (batchPrompt leads) 2000 with
    | none => leads.map (score_lead env)
    | some r =>
      if r = "" then leads.map (score_lead env)
      else
        match env.decodeBatch r with
        | none => leads.map (score_lead env)
        | some rs =>
          leads.map (fun lead =>
            match resultsMapFind rs lead.post_id with
            | some rec => applyScoreRec lead rec
            | none => lead)

/-- Fuel-driven worker for `chunkList`; the fuel is an upper bound on the
list length, so the `0, _ :: _` case is never reached in `chunkList`. -/
def chunkListAux (bs : Nat) : Nat → List Lead → List (List Lead)
  | _, [] => []
  | 0, _ :: _ => []
  | fuel + 1, x :: xs => ((x :: xs).take bs) :: chunkListAux bs fuel ((x :: xs).drop bs)

/-- The groups `leads[i:i+batch_size]` visited by the
`for i in range(0, len(leads), self.batch_size)` loop of `score_leads`.
Python raises on a zero step, so `batch_size = 0` is modelled as producing
no groups; all theorems assume a positive batch size. -/
def chunkList (bs : Nat) (xs : List Lead) : List (List Lead) :=
  if bs = 0 then [] else chunkListAux bs xs.length xs

/-- `SignalScorer.score_leads`: batch scoring when enabled and more than one
lead (concatenating the per-group results, the `time.sleep` rate-limit pause
having no observable effect on the result), individual scoring otherwise. -/
def score_leads (env : InferenceEnv) (batch_size : Nat) (use_batch : Bool)
    (leads : List Lead) : List Lead :=
  if !env.configured then leads
  else if leads.isEmpty then leads
  else if use_batch && leads.length > 1 then
    ((chunkList batch_size leads).map (score_batch env)).flatten
  else
    leads.map (score_lead env)

/-- `SignalScorer.filter_high_signal`: keep the leads whose `signal_score`
is present and at least the threshold. -/
def filter_high_signal (threshold : Int) (leads : List Lead) : List Lead :=
  leads.filter (fun lead =>
    lead.signal_score.isSome && threshold ≤ lead.signal_score.getD 0)

/-! ## `src/config/settings.py` (the Gemini configuration) -/

/-- A model of Python `int()` on decimal strings: optional surrounding
whitespace, an optional sign, then at least one digit (digit-group
underscores are not modelled; none occur in the defaults). -/
def pyInt (s : String) : Option Int :=
  let t := pyTrim s
  let (neg, ds) :=
    match t.data with
    | '-' :: rest => (true, rest)
    | '+' :: rest => (false, rest)
    | l => (false, l)
  if ds.isEmpty ∨ ¬ ds.all Char.isDigit then none
  else
    let n := ds.foldl (fun acc c => acc * 10 + (c.toNat - '0'.toNat)) 0
    some (if neg then -(n : Int) else (n : Int))

/-- `GeminiConfig` from `src/config/settings.py`. -/
structure GeminiConfig where
  api_key : String
  model : String
  signal_threshold : Int
deriving Repr, DecidableEq

/-- `GeminiConfig.from_env`, with the process environment passed explicitly.
`int(...)` raising (non-numeric `SIGNAL_THRESHOLD`) is modelled as `none`. -/
def GeminiConfig.from_env (env : String → Option String) : Option GeminiConfig :=
  (pyInt ((env "SIGNAL_THRESHOLD").getD "7")).map (fun t =>
    { api_key := (env "GEMINI_API_KEY").getD ""
      model := (env "GEMINI_MODEL").getD "gemma-3-27b-it"
      signal_threshold := t })

/-! ## `src/analyzer/response_generator.py` -/

/-- `COMMENT_WORTHY_PROMPT.format(...)` from
`src/analyzer/response_generator.py`.  `signal_score` is rendered through
Python truthiness (`lead.signal_score or "N/A"`), so a missing — or zero —
score prints as `N/A`. -/
def COMMENT_WORTHY_PROMPT_rendered (subreddit title body signal_score category : String) : String :=
  "Evaluate if this Reddit post is worth commenting on for a language learning app that helps with speaking practice.\n\n" ++
  "POST DETAILS:\n" ++
  "- Subreddit: r/" ++ subreddit ++ "\n" ++
  "- Title: " ++ title ++ "\n" ++
  "- Body: " ++ body ++ "\n" ++
  "- Signal score: " ++ signal_score ++ "/10\n" ++
  "- Category: " ++ category ++ "\n\n" ++
  "CRITERIA FOR WORTH COMMENTING:\n" ++
  "1. The user has a SPECIFIC, ACTIONABLE problem we can help with (not just venting)\n" ++
  "2. They're open to suggestions (asking for advice, not just sharing frustration)\n" ++
  "3. A genuine, helpful comment would feel natural and not out of place\n" ++
  "4. The post hasn't already been solved or is too old/inactive\n" ++
  "5. Our comment could add unique value (not just repeating what others said)\n\n" ++
  "NOT WORTH COMMENTING IF:\n" ++
  "- User is just celebrating/venting without seeking help\n" ++
  "- Very short post with no real substance to engage with\n" ++
  "- Too general/vague to give meaningful advice\n" ++
  "- Asking about grammar/vocabulary (not speaking practice)\n" ++
  "- Looking for specific resources we can't provide (tutors in a city, etc.)\n" ++
  "- Already received comprehensive answers\n\n" ++
  "Respond with ONLY a JSON object:\n" ++
  "\x7b\"worthy\": true/false, \"reason\": \"<brief 1-sentence explanation>\"\x7d\n"

/-- The worthiness prompt for a lead as built in
`ResponseGenerator.evaluate_comment_worthy` (`lead.signal_score or "N/A"`,
`lead.category or "General Learning"`). -/
def worthyPrompt (lead : Lead) : String :=
  COMMENT_WORTHY_PROMPT_rendered lead.subreddit lead.title (pyTake lead.body 1000)
    (match lead.signal_score with
     | some n => if n = 0 then "N/A" else toString n
     | none => "N/A")
    ((lead.category.filter (· ≠ "")).getD "General Learning")

/-- `PUBLIC_DRAFT_PROMPT.format(...)` from
`src/analyzer/response_generator.py` (the `category` keyword argument passed
by the caller does not occur in the template and is ignored by `format`). -/
def PUBLIC_DRAFT_PROMPT_rendered (subreddit title body : String) : String :=
  "Write a SHORT Reddit comment (2-3 sentences MAX) responding to this post.\n\n" ++
  "POST:\n" ++
  "r/" ++ subreddit ++ ": " ++ title ++ "\n" ++
  body ++ "\n\n" ++
  "RULES:\n" ++
  "- 2-3 sentences MAX, be concise\n" ++
  "- Share ONE quick tip or relatable experience\n" ++
  "- End with a genuine question to start a conversation (about their situation, not leading anywhere)\n" ++
  "- Sound like a normal person, not a marketer\n" ++
  "- NO emojis, NO *italics* or **bold**\n" ++
  "- NO em dashes (use commas or periods instead)\n" ++
  "- NO \"Hey!\" or enthusiastic greetings\n" ++
  "- NO \"You've got this!\" or cheerleader phrases\n" ++
  "- NO mentioning apps, AI, tools, or products\n" ++
  "- Use simple punctuation (periods, commas, question marks)\n\n" ++
  "Write ONLY the comment, nothing else.\n"

/-- `DM_DRAFT_PROMPT.format(...)` from `src/analyzer/response_generator.py`. -/
def DM_DRAFT_PROMPT_rendered (title category language : String) : String :=
  "You are helping draft a friendly direct message to a Reddit user who might benefit from a language speaking practice app.\n\n" ++
  "USER CONTEXT:\n" ++
  "- Their post: \"" ++ title ++ "\"\n" ++
  "- Their struggle: " ++ category ++ "\n" ++
  "- Language they're learning: " ++ language ++ "\n\n" ++
  "Write a warm, personal DM that:\n" ++
  "1. References their specific post and struggle\n" ++
  "2. Mentions you're working on Kaiwa, an app for speaking practice with AI tutors\n" ++
  "3. Offers to let them try it for free to see if it helps\n" ++
  "4. Keeps it short (under 100 words)\n" ++
  "5. Sounds genuine and helpful, not salesy\n" ++
  "6. Ends with a low-pressure invitation\n\n" ++
  "Write ONLY the message text, no subject line or explanations.\n"

/-- The generator's configuration: the `response_model` used for drafts and
the `require_comment_worthy` gate flag, read off `gemini_config` in
`ResponseGenerator.__init__`. -/
structure GeneratorConfig where
  response_model : String
  require_comment_worthy : Bool
deriving Repr, DecidableEq

/-- `ResponseGenerator.evaluate_comment_worthy`: returns the
`(is_worthy, reason)` pair.  Every failure branch of the source (client not
configured, falsy response, `json.JSONDecodeError`, generic exception)
returns `(True, <explanatory reason>)` — the embedding is total, nothing is
raised to the caller. -/
def evaluate_comment_worthy (env : InferenceEnv) (lead : Lead) : Bool × String :=
  if !env.configured then
    (true, "Skipped evaluation - API not configured")
  else
    match env.respond (worthyPrompt lead) 200 with
    | none => (true, "Evaluation failed - defaulting to worthy")
    | some r =>
      if r = "" then (true, "Evaluation failed - defaulting to worthy")
      else
        match env.decodeWorthy r with
        | none => (true, "Parse error - defaulting to worthy")
        | some rec => (rec.worthy.getD true, rec.reason.getD "No reason provided")

/-- `ResponseGenerator.generate_public_draft`. -/
def generate_public_draft (env : InferenceEnv) (cfg : GeneratorConfig)
    (lead : Lead) : Option String :=
  if !env.configured then none
  else
    env.generate (PUBLIC_DRAFT_PROMPT_rendered lead.subreddit lead.title (pyTake lead.body 1000))
      300 cfg.response_model

/-- `ResponseGenerator.generate_dm_draft` (`lead.category or "language
learning challenges"`, `lead.language_detected or "a new language"`). -/
def generate_dm_draft (env : InferenceEnv) (cfg : GeneratorConfig)
    (lead : Lead) : Option String :=
  if !env.configured then none
  else
    env.generate
      (DM_DRAFT_PROMPT_rendered lead.title
        ((lead.category.filter (· ≠ "")).getD "language learning challenges")
        ((lead.language_detected.filter (· ≠ "")).getD "a new language"))
      200 cfg.response_model

/-- `ResponseGenerator.generate_responses`: evaluate worthiness (when
enabled), record flag and reason, and attempt both drafts for worthy leads.
An unworthy lead is returned — with its flag and reason set — rather than
dropped; an unconfigured client returns the lead unchanged. -/
def generate_responses (env : InferenceEnv) (cfg : GeneratorConfig)
    (lead : Lead) : Lead :=
  if !env.configured then lead
  else
    let afterWorthy :=
      if cfg.require_comment_worthy then
        let (worthy, reason) := evaluate_comment_worthy env lead
        some ({ lead with comment_worthy := some worthy,
                          comment_worthy_reason := some reason }, worthy)
      else
        none
    match afterWorthy with
    | some (lead', false) => lead'
    | some (lead', true) =>
      { lead' with
        public_draft := generate_public_draft env cfg lead'
        dm_draft := generate_dm_draft env cfg lead' }
    | none =>
      { lead with
        public_draft := generate_public_draft env cfg lead
        dm_draft := generate_dm_draft env cfg lead }

/-! ## `src/analyzer/gemini_client.py` — `generate_json` extraction

`_make_request` (the network call) is abstracted as the optional raw
response text; `generate_json` post-processes it.  The two `re.search`
patterns are modelled as explicit leftmost-match scans over the character
list: `fencedSearch` models
`re.search(r"` ++ "```" ++ `(?:json)?\\s*([\\[\\{].*?[\\]\\}])\\s*` ++ "```" ++ `", response, re.DOTALL)`
and `greedySearch` models
`re.search(r"([\\[\\{].*[\\]\\}])", response, re.DOTALL)`, in both cases
returning the captured group. -/

/-- The opening-bracket character class `[\[\{]`. -/
def openBr (c : Char) : Bool := c = '[' || c = '{'

/-- The closing-bracket character class `[\]\}]`. -/
def closeBr (c : Char) : Bool := c = ']' || c = '}'

/-- `\s` of the regexes (ASCII whitespace; the Python class also covers rare
unicode spaces, which do not occur in the inputs considered). -/
def isSpaceCh (c : Char) : Bool := c.isWhitespace

/-- Does a `\s*`-separated closing fence follow here?  Models the greedy
`\s*` directly followed by the literal fence: whitespace and backticks are
disjoint, so the greedy star is deterministic. -/
def fenceFollows (cs : List Char) : Bool :=
  (cs.dropWhile isSpaceCh).take 3 = ['`', '`', '`']

/-- The lazy group tail `.*?[\]\}]` of the fenced pattern, constrained by the
`\s*` ++ fence that must follow: take the shortest prefix ending at a closing
bracket that is followed by the closing fence.  Returns the consumed
characters (content plus closing bracket). -/
def fencedContent : List Char → Option (List Char)
  | [] => none
  | d :: rest =>
    if closeBr d && fenceFollows rest then some [d]
    else
      match fencedContent rest with
      | some g => some (d :: g)
      | none => none

/-- Try the fenced pattern anchored at the current position: the literal
opening fence, an optional `json` tag, greedy whitespace, one opening
bracket, then the lazy content.  (The `(?:json)?` and `\s*` pieces are
deterministic here because a skipped `json` tag or skipped whitespace could
never be matched by the following bracket class.) -/
def fencedMatchAt (cs : List Char) : Option (List Char) :=
  match cs with
  | '`' :: '`' :: '`' :: rest =>
    let rest := if rest.take 4 = ['j', 's', 'o', 'n'] then rest.drop 4 else rest
    match rest.dropWhile isSpaceCh with
    | c :: rest' =>
      if openBr c then (fencedContent rest').map (fun g => c :: g)
      else none
    | [] => none
  | _ => none

/-- Leftmost search for the fenced pattern: try every start position from the
left, as `re.search` does. -/
def fencedSearch : List Char → Option (List Char)
  | [] => none
  | c :: rest =>
    match fencedMatchAt (c :: rest) with
    | some g => some g
    | none => fencedSearch rest

/-- Index of the last closing-bracket character, if any (the position the
greedy `.*` backtracks to). -/
def lastCloseIdx : List Char → Option Nat
  | [] => none
  | c :: rest =>
    match lastCloseIdx rest with
    | some j => some (j + 1)
    | none => if closeBr c then some 0 else none

/-- Try the greedy pattern `[\[\{].*[\]\}]` anchored at the current position:
one opening bracket, then `.*` greedily runs to the end and backtracks to the
last closing bracket. -/
def greedyMatchAt (cs : List Char) : Option (List Char) :=
  match cs with
  | [] => none
  | c :: rest =>
    if openBr c then (lastCloseIdx rest).map (fun j => c :: rest.take (j + 1))
    else none

/-- Leftmost search for the greedy pattern. -/
def greedySearch : List Char → Option (List Char)
  | [] => none
  | c :: rest =>
    match greedyMatchAt (c :: rest) with
    | some g => some g
    | none => greedySearch rest

/-- `GeminiClient.generate_json` from `src/analyzer/gemini_client.py`, given
the raw `_make_request` result: falsy responses yield `None`; the stripped
text is returned directly when it already starts with `{` or `[`; otherwise
the fenced extraction is tried, then the greedy bracket span, and the
stripped text is returned verbatim when neither matches. -/
def generate_json (raw : Option String) : Option String :=
  match raw with
  | none => none
  | some r =>
    if r = "" then none    -- `if not response: return None`
    else
      let response := pyTrim r
      if pyStartsWith response "\x7b" || pyStartsWith response "[" then some response
      else
        match fencedSearch response.data with
        | some g => some (String.mk g)
        | none =>
          match greedySearch response.data with
          | some g => some (String.mk g)
          | none => some response

/-- The extraction the specification describes, stated from its words: the
*first balanced* `{...}` or `[...]` span of the text — from the first opening
bracket to the matching point where bracket depth (counting both bracket
kinds) returns to zero.  Used to compare the specified behaviour with the
implemented one. -/
def specFirstBalancedSpan (s : String) : Option String :=
  let cs := s.data
  match cs.findIdx? openBr with
  | none => none
  | some i =>
    let rest := cs.drop i
    (balancedPrefixLen rest 0 0).map (fun n => String.mk (rest.take n))
where
  /-- Length of the shortest prefix of `cs` after which the bracket depth,
  starting from `depth` with `pos` characters consumed, returns to zero. -/
  balancedPrefixLen : List Char → Nat → Nat → Option Nat
    | [], _, _ => none
    | c :: rest, pos, depth =>
      let depth' := if openBr c then depth + 1 else if closeBr c then depth - 1 else depth
      if openBr c || closeBr c then
        if depth' = 0 then some (pos + 1)
        else balancedPrefixLen rest (pos + 1) depth'
      else balancedPrefixLen rest (pos + 1) depth

/-! ## Claims

One theorem per claim of the behavioural specification, in claim order,
each preceded by the helper lemmas it needs. -/

/-- C2: `filter_post` applies its checks in the fixed order deleted-author,
then exclusion keywords, then trigger requirement, and increments exactly
the counter of the first failing check.  First conjunct: a post authored by
the sentinel `"[deleted]"` is rejected with reason `deleted_author` and only
the `deleted_author` counter incremented (`no_trigger` and `excluded` are
untouched), for any filter flags.  Second conjunct: a post by a live author
containing at least one exclusion keyword and zero trigger keywords is
rejected with an `excluded: ...` reason and only the `excluded` counter
incremented — the exclusion check takes precedence over the trigger
requirement. -/
theorem claim_C2 :
    (∀ (rt em : Bool) (stats : FilterStats) (post : RedditPost),
      post.author = "[deleted]" →
      filter_post rt em stats post =
        ({ stats with total := stats.total + 1,
                      deleted_author := stats.deleted_author + 1 },
         { post := post, passed := false, matched_triggers := [],
           matched_excludes := [], language_detected := none,
           reason := "deleted_author" })) ∧
    (∀ (rt : Bool) (stats : FilterStats) (post : RedditPost) (excl : List String),
      post.author ≠ "[deleted]" →
      has_exclude_keyword post.full_text = (true, excl) →
      (has_trigger_keyword post.full_text).1 = false →
      filter_post rt true stats post =
        ({ stats with total := stats.total + 1,
                      excluded := stats.excluded + 1 },
         { post := post, passed := false, matched_triggers := [],
           matched_excludes := excl, language_detected := none,
           reason := "excluded: " ++ pyJoin ", " (excl.take 3) })) := by
  constructor
  · intro rt em stats post h
    simp [filter_post, h]
  · intro rt stats post excl hne hex _
    simp [filter_post, hne, hex]

/-- Witness for C2 at concrete posts: a `[deleted]`-authored post increments
only `deleted_author`, and a post whose text is `"jlpt "` (one exclusion
keyword, no trigger keyword) increments only `excluded` with an
`excluded: jlpt` reason. -/
theorem claim_C2_witness :
    filter_post true true {}
        { id := "d1", subreddit := "s", author := "[deleted]", title := "t",
          selftext := "b", url := "u", permalink := "p", created_utc := 0,
          score := 0, num_comments := 0 } =
      ({ total := 1, deleted_author := 1 },
       { post := { id := "d1", subreddit := "s", author := "[deleted]",
                   title := "t", selftext := "b", url := "u", permalink := "p",
                   created_utc := 0, score := 0, num_comments := 0 },
         passed := false, matched_triggers := [], matched_excludes := [],
         language_detected := none, reason := "deleted_author" }) ∧
    filter_post true true {}
        { id := "e1", subreddit := "s", author := "live", title := "jlpt",
          selftext := "", url := "u", permalink := "p", created_utc := 0,
          score := 0, num_comments := 0 } =
      ({ total := 1, excluded := 1 },
       { post := { id := "e1", subreddit := "s", author := "live",
                   title := "jlpt", selftext := "", url := "u", permalink := "p",
                   created_utc := 0, score := 0, num_comments := 0 },
         passed := false, matched_triggers := [], matched_excludes := ["jlpt"],
         language_detected := none, reason := "excluded: jlpt" }) :=
  ⟨claim_C2.1 true true {} _ rfl,
   claim_C2.2 true {} _ ["jlpt"] (by decide) (by decide) (by decide)⟩

/-- A lead with the given id and signal score (all other fields fixed),
used to state the concrete threshold-filter example of C4. -/
def c4Lead (pid : String) (s : Option Int) : Lead :=
  { post_id := pid, subreddit := "s", author := "a", title := "t", body := "b",
    post_url := "u", message_url := "m", signal_score := s }

/-- C4: `filter_high_signal` is a pure function returning exactly the leads
whose `signal_score` is present and at least the threshold (first conjunct),
in their original relative order (second conjunct: the result is a sublist
of the input, and unscored leads are excluded by the first conjunct); the
configured default threshold is 7 (third conjunct); and on scores
`[9, None, 5, 7]` with threshold 7 it returns exactly the leads scoring 9
and 7 in that order (fourth conjunct). -/
theorem claim_C4 :
    (∀ (t : Int) (leads : List Lead) (lead : Lead),
      lead ∈ filter_high_signal t leads ↔
        lead ∈ leads ∧ ∃ n, lead.signal_score = some n ∧ t ≤ n) ∧
    (∀ (t : Int) (leads : List Lead), (filter_high_signal t leads).Sublist leads) ∧
    ((GeminiConfig.from_env (fun _ => none)).map (·.signal_threshold) = some 7) ∧
    (filter_high_signal 7
        [c4Lead "p9" (some 9), c4Lead "pn" none, c4Lead "p5" (some 5),
         c4Lead "p7" (some 7)] =
      [c4Lead "p9" (some 9), c4Lead "p7" (some 7)]) := by
  refine ⟨?_, ?_, by decide, by decide⟩
  · intro t leads lead
    simp only [filter_high_signal, List.mem_filter, Bool.and_eq_true,
      Option.isSome_iff_exists, decide_eq_true_eq]
    constructor
    · rintro ⟨hm, ⟨n, hn⟩, hle⟩
      exact ⟨hm, n, hn, by simpa [hn] using hle⟩
    · rintro ⟨hm, n, hn, hle⟩
      exact ⟨hm, ⟨n, hn⟩, by simpa [hn] using hle⟩
  · intro t leads
    exact List.filter_sublist _

/-! ### C1: dedup sink -/

/-- Well-formedness of a lead for the dedup sink: the id recoverable from
its `post_url` (the substring between `/comments/` and the next `/`) is its
`post_id`.  Every lead built by `Lead.from_post` from a standard reddit
permalink satisfies this; it is the invariant the specification itself
assumes ("a candidate identifier ... derived once from the source URL"). -/
@[reducible] def wfLead (l : Lead) : Prop :=
  extractPostId l.post_url = some l.post_id

/-- Number of stored rows carrying the identifier `x`. -/
def countId (rows : List Lead) (x : String) : Nat :=
  (rows.filter (fun r => r.post_id = x)).length

theorem countId_append (rows₁ rows₂ : List Lead) (x : String) :
    countId (rows₁ ++ rows₂) x = countId rows₁ x + countId rows₂ x := by
  simp [countId]

theorem countId_singleton (l : Lead) (x : String) :
    countId [l] x = if l.post_id = x then 1 else 0 := by
  by_cases h : l.post_id = x <;> simp [countId, h]

/-- How the append loop of `save_leads` changes the row count of one
identifier: nothing if the identifier is already known, one new row if it
occurs in the batch, nothing otherwise. -/
theorem saveLeadsLoop_countId (x : String) :
    ∀ (batch : List Lead) (existing : List String) (acc : SaveResult),
      countId (saveLeadsLoop existing acc batch).store x =
        countId acc.store x +
          (if x ∈ existing then 0
           else if x ∈ batch.map Lead.post_id then 1 else 0) := by
  intro batch
  induction batch with
  | nil => intro existing acc; simp [saveLeadsLoop]
  | cons l ls ih =>
    intro existing acc
    by_cases hmem : l.post_id ∈ existing
    · rw [saveLeadsLoop, if_pos hmem, ih]
      by_cases hx : x ∈ existing
      · simp [hx]
      · have hne : ¬ x = l.post_id := fun h => hx (h ▸ hmem)
        simp [hx, List.mem_cons, hne]
    · rw [saveLeadsLoop, if_neg hmem, ih]
      by_cases hxl : x = l.post_id
      · have hxex : x ∈ existing ++ [l.post_id] := by simp [hxl]
        have hxmem : x ∉ existing := fun h => hmem (hxl ▸ h)
        have hxmap : x ∈ List.map Lead.post_id (l :: ls) := by simp [hxl]
        rw [if_pos hxex, if_neg hxmem, if_pos hxmap, countId_append,
          countId_singleton, if_pos hxl.symm]
      · have hxex : (x ∈ existing ++ [l.post_id]) ↔ x ∈ existing := by
          simp [List.mem_append, hxl]
        by_cases hx : x ∈ existing
        · simp [hxex, hx, countId_append, countId_singleton, Ne.symm hxl]
        · simp [hxex, hx, countId_append, countId_singleton, Ne.symm hxl,
            List.mem_cons, hxl]

/-- The append loop accounts for every batch element exactly once, either as
saved or as skipped. -/
theorem saveLeadsLoop_saved_skipped :
    ∀ (batch : List Lead) (existing : List String) (acc : SaveResult),
      (saveLeadsLoop existing acc batch).saved +
        (saveLeadsLoop existing acc batch).skipped =
      acc.saved + acc.skipped + batch.length := by
  intro batch
  induction batch with
  | nil => intro existing acc; simp [saveLeadsLoop]
  | cons l ls ih =>
    intro existing acc
    by_cases hmem : l.post_id ∈ existing
    · rw [saveLeadsLoop, if_pos hmem, ih]; simp; omega
    · rw [saveLeadsLoop, if_neg hmem, ih]; simp; omega

/-- The append loop writes exactly the rows it counts as saved. -/
theorem saveLeadsLoop_store_length :
    ∀ (batch : List Lead) (existing : List String) (acc : SaveResult),
      (saveLeadsLoop existing acc batch).store.length + acc.saved =
      acc.store.length + (saveLeadsLoop existing acc batch).saved := by
  intro batch
  induction batch with
  | nil => intro existing acc; simp [saveLeadsLoop]
  | cons l ls ih =>
    intro existing acc
    by_cases hmem : l.post_id ∈ existing
    · rw [saveLeadsLoop, if_pos hmem]; exact ih existing _
    · rw [saveLeadsLoop, if_neg hmem]
      have h := ih (existing ++ [l.post_id])
        { acc with store := acc.store ++ [l], saved := acc.saved + 1 }
      simp at h
      omega

/-- Number of stored rows whose identifier *as recomputed from the stored
post-URL field* is `x` — the claim's own notion of "stored row for that
identifier". -/
def countUrlId (rows : List Lead) (x : String) : Nat :=
  (rows.filter (fun r => extractPostId r.post_url = some x)).length

/-- On well-formed rows the URL-recomputed count and the `post_id` count
agree. -/
theorem countUrlId_eq_countId (rows : List Lead) (x : String)
    (hwf : ∀ r ∈ rows, wfLead r) :
    countUrlId rows x = countId rows x := by
  unfold countUrlId countId
  rw [List.filter_congr]
  intro r hr
  have h := hwf r hr
  rw [wfLead] at h
  simp [h]

/-- Every row present after the append loop was either already stored or
came from the batch. -/
theorem saveLeadsLoop_store_mem :
    ∀ (batch : List Lead) (existing : List String) (acc : SaveResult)
      (r : Lead), r ∈ (saveLeadsLoop existing acc batch).store →
      r ∈ acc.store ∨ r ∈ batch := by
  intro batch
  induction batch with
  | nil => intro existing acc r h; rw [saveLeadsLoop] at h; exact Or.inl h
  | cons l ls ih =>
    intro existing acc r h
    by_cases hmem : l.post_id ∈ existing
    · rw [saveLeadsLoop, if_pos hmem] at h
      rcases ih existing _ r h with h' | h'
      · exact Or.inl h'
      · exact Or.inr (List.mem_cons_of_mem _ h')
    · rw [saveLeadsLoop, if_neg hmem] at h
      rcases ih (existing ++ [l.post_id]) _ r h with h' | h'
      · rcases List.mem_append.mp h' with h'' | h''
        · exact Or.inl h''
        · have hrl : r = l := List.mem_singleton.mp h''
          exact Or.inr (hrl ▸ List.mem_cons_self l ls)
      · exact Or.inr (List.mem_cons_of_mem _ h')

/-- For a store of well-formed rows, membership in the recomputed id set is
exactly "some stored row carries this id". -/
theorem mem_get_existing_post_ids (store : List Lead) (x : String)
    (hwf : ∀ r ∈ store, wfLead r) :
    x ∈ get_existing_post_ids store ↔ 0 < countId store x := by
  rw [get_existing_post_ids, List.mem_filterMap]
  constructor
  · rintro ⟨r, hr, hid⟩
    have := hwf r hr
    rw [wfLead] at this
    rw [this] at hid
    have hx : r.post_id = x := by injection hid
    have : r ∈ store.filter (fun r => r.post_id = x) :=
      List.mem_filter.mpr ⟨hr, by simp [hx]⟩
    calc 0 < 1 := Nat.zero_lt_one
    _ ≤ _ := List.length_pos.mpr (fun hnil => by simp [hnil] at this)
  · intro hpos
    obtain ⟨r, hr⟩ := List.exists_mem_of_length_pos hpos
    have hmem := List.mem_filter.mp hr
    refine ⟨r, hmem.1, ?_⟩
    have := hwf r hmem.1
    rw [wfLead] at this
    rw [this]
    simpa using hmem.2

/-- C1: persisting the same candidate identifier twice — earlier in the same
`save_leads` batch or already present in the store from a prior run — leaves
exactly one stored row for that identifier.  The id set is recomputed from
the stored `post_url` fields (`extractPostId`, the substring between
`/comments/` and the next `/`); the row count `countUrlId` is itself stated
in terms of the URL-recomputed identifier, and the well-formedness
hypotheses say that ids are recoverable this way — the specification's own
identifier invariant.
Second and third conjuncts: every batch element is counted exactly once as
saved or skipped, and exactly the saved ones are appended — so a duplicate
is skipped, counted, and never written. -/
theorem claim_C1 (store batch : List Lead) (x : String)
    (hwfS : ∀ r ∈ store, wfLead r) (hwfB : ∀ l ∈ batch, wfLead l)
    (hone : countId store x ≤ 1)
    (hx : countId store x = 1 ∨ x ∈ batch.map Lead.post_id) :
    countUrlId (save_leads store batch).store x = 1 ∧
    (save_leads store batch).saved + (save_leads store batch).skipped =
      batch.length ∧
    (save_leads store batch).store.length =
      store.length + (save_leads store batch).saved := by
  have hwfAll : ∀ r ∈ (save_leads store batch).store, wfLead r := by
    intro r hr
    rcases saveLeadsLoop_store_mem batch _ _ r hr with h | h
    · exact hwfS r h
    · exact hwfB r h
  refine ⟨?_, ?_, ?_⟩
  · rw [countUrlId_eq_countId _ _ hwfAll]
    rw [save_leads, saveLeadsLoop_countId]
    have hiff := mem_get_existing_post_ids store x hwfS
    rcases hx with hin | hbatch
    · have : x ∈ get_existing_post_ids store := hiff.mpr (by omega)
      simp only [this, if_true]
      simpa using hin
    · by_cases hin : x ∈ get_existing_post_ids store
      · have h1 : 0 < countId store x := hiff.mp hin
        simp only [hin, if_true]
        have : countId store x = 1 := by omega
        simpa using this
      · have h0 : countId store x = 0 := by
          by_contra hne
          exact hin (hiff.mpr (by omega))
        simp only [hin, if_false, hbatch, if_true]
        simp [h0]
  · have h := saveLeadsLoop_saved_skipped batch (get_existing_post_ids store)
      { store := store, saved := 0, skipped := 0 }
    rw [save_leads]
    simpa using h
  · have h := saveLeadsLoop_store_length batch (get_existing_post_ids store)
      { store := store, saved := 0, skipped := 0 }
    rw [save_leads]
    simpa using h

/-- Witness for C1: a store holding one well-formed row with id `abc` and a
batch re-submitting the same id twice still ends with exactly one `abc` row,
both batch elements counted as skipped and nothing appended. -/
theorem claim_C1_witness :
    countUrlId (save_leads
        [{ post_id := "abc", subreddit := "s", author := "a", title := "t",
           body := "b",
           post_url := "https://reddit.com/r/s/comments/abc/t/",
           message_url := "m" }]
        [{ post_id := "abc", subreddit := "s", author := "a", title := "t",
           body := "b",
           post_url := "https://reddit.com/r/s/comments/abc/t/",
           message_url := "m" },
         { post_id := "abc", subreddit := "s", author := "a2", title := "t2",
           body := "b2",
           post_url := "https://reddit.com/r/s/comments/abc/t2/",
           message_url := "m2" }]).store "abc" = 1 := by
  have h := claim_C1
    [{ post_id := "abc", subreddit := "s", author := "a", title := "t",
       body := "b",
       post_url := "https://reddit.com/r/s/comments/abc/t/",
       message_url := "m" }]
    [{ post_id := "abc", subreddit := "s", author := "a", title := "t",
       body := "b",
       post_url := "https://reddit.com/r/s/comments/abc/t/",
       message_url := "m" },
     { post_id := "abc", subreddit := "s", author := "a2", title := "t2",
       body := "b2",
       post_url := "https://reddit.com/r/s/comments/abc/t2/",
       message_url := "m2" }]
    "abc" (by decide) (by decide) (by decide) (Or.inl (by decide))
  exact h.1

/-! ### C3: single-item scoring failure path -/

/-- An inference environment whose scoring call always fails at the adapter
(`generate_json` returns `None`), with Gemini configured. -/
def envC3 : InferenceEnv :=
  { configured := true
    respond := fun _ _ => none
    generate := fun _ _ _ => none
    decodeSingle := fun _ => none
    decodeBatch := fun _ => none
    decodeWorthy := fun _ => none }

/-- A freshly filtered lead: its phase-2 analysis fields are still at the
`Lead` dataclass defaults (`None`). -/
def leadC3 : Lead :=
  { post_id := "c3", subreddit := "s", author := "a", title := "t",
    body := "b", post_url := "u", message_url := "m" }

/-- Counterexample to C3 as stated: when the adapter fails, `score_lead`
returns the lead *unchanged* — for a fresh lead the signal tier stays
`None` (not `"MEDIUM"`) and the category stays `None` (not `"General"`).
The `"MEDIUM"` / `"General Learning"` values are only the `dict.get`
defaults used when a response parses but lacks keys; they are never applied
on a failed call. -/
theorem claim_C3_cex :
    score_lead envC3 leadC3 = leadC3 ∧
    (score_lead envC3 leadC3).signal_type ≠ some "MEDIUM" ∧
    (score_lead envC3 leadC3).category ≠ some "General" ∧
    (score_lead envC3 leadC3).category ≠ some "General Learning" := by
  decide

/-- C3 as amended: for every lead, if Gemini is not configured, or the
single-item scoring call fails (the adapter returns no result or an empty
string), or its response fails to parse as JSON, `score_lead` returns the
lead with all of its fields *unchanged* (in particular a fresh lead keeps
score, tier and category unset) — and, the embedding being a total
function, no exception reaches the caller. -/
theorem claim_C3 (env : InferenceEnv) (lead : Lead)
    (h : env.configured = false ∨
         isFalsy (env.respond (scoringPrompt lead) 1024) = true ∨
         ∃ r, env.respond (scoringPrompt lead) 1024 = some r ∧ r ≠ "" ∧
           env.decodeSingle r = none) :
    score_lead env lead = lead := by
  rcases h with h | h | ⟨r, hr, hne, hd⟩
  · simp [score_lead, h]
  · rcases hresp : env.respond (scoringPrompt lead) 1024 with _ | s
    · simp [score_lead, hresp]
    · rw [hresp] at h
      have hs : s = "" := by simpa [isFalsy] using h
      simp [score_lead, hresp, hs]
  · simp [score_lead, hr, hne, hd]

/-- Witness for the amended C3 at the concrete failing environment. -/
theorem claim_C3_witness : score_lead envC3 leadC3 = leadC3 :=
  claim_C3 envC3 leadC3 (Or.inr (Or.inl rfl))

/-! ### C5, C6, C10: batch scoring -/

/-- With pairwise-distinct record ids, the results-map lookup finds exactly
the record bearing the requested identifier, wherever it sits in the
array. -/
theorem resultsMapFind_eq (rs : List ScoreRec) (rec : ScoreRec) (pid : String)
    (hnodup : (rs.map ScoreRec.id).Nodup) (hmem : rec ∈ rs)
    (hid : rec.id = some pid) :
    resultsMapFind rs pid = some rec := by
  have hfil : rs.filter (fun r => r.id = some pid) = [rec] := by
    induction rs with
    | nil => cases hmem
    | cons r rs' ih =>
      rw [List.map_cons, List.nodup_cons] at hnodup
      rcases List.mem_cons.mp hmem with hEq | hmem'
      · subst hEq
        rw [List.filter_cons_of_pos (by simp [hid])]
        have : rs'.filter (fun r => r.id = some pid) = [] := by
          rw [List.filter_eq_nil_iff]
          intro a ha hpa
          apply hnodup.1
          have : a.id = rec.id := by
            simp only [decide_eq_true_eq] at hpa
            rw [hpa, hid]
          exact this ▸ List.mem_map_of_mem ScoreRec.id ha
        rw [this]
      · have hrne : ¬ (r.id = some pid) := by
          intro hr
          apply hnodup.1
          have : r.id = rec.id := by rw [hr, hid]
          exact this ▸ List.mem_map_of_mem ScoreRec.id hmem'
        rw [List.filter_cons_of_neg (by simpa using hrne)]
        exact ih hnodup.2 hmem'
  rw [resultsMapFind, hfil]
  rfl

/-- Shape of `_score_batch` after a successful parse: each lead is updated
from the record bearing its id, or passed through unchanged. -/
theorem score_batch_parsed (env : InferenceEnv) (g : List Lead) (r : String)
    (rs : List ScoreRec)
    (hresp : env.respond (batchPrompt g) 2000 = some r) (hne : r ≠ "")
    (hdec : env.decodeBatch r = some rs) :
    score_batch env g = g.map (fun lead =>
      match resultsMapFind rs lead.post_id with
      | some rec => applyScoreRec lead rec
      | none => lead) := by
  rcases g with _ | ⟨l, ls⟩
  · simp [score_batch]
  · simp [score_batch, hresp, hne, hdec]

/-- C5: batch results are matched back to candidates by identifier, not by
array position — for any two successfully parsed response arrays that are
permutations of each other (with pairwise-distinct ids), every lead of the
group receives the score, tier and category of the record bearing its own
identifier, whatever the array order. -/
theorem claim_C5 (env₁ env₂ : InferenceEnv) (g : List Lead) (r₁ r₂ : String)
    (rs₁ rs₂ : List ScoreRec)
    (h₁ : env₁.respond (batchPrompt g) 2000 = some r₁) (hne₁ : r₁ ≠ "")
    (hd₁ : env₁.decodeBatch r₁ = some rs₁)
    (h₂ : env₂.respond (batchPrompt g) 2000 = some r₂) (hne₂ : r₂ ≠ "")
    (hd₂ : env₂.decodeBatch r₂ = some rs₂)
    (hperm : rs₁.Perm rs₂) (hnodup : (rs₁.map ScoreRec.id).Nodup) :
    ∀ (i : Nat) (hi : i < g.length) (rec : ScoreRec), rec ∈ rs₁ →
      rec.id = some g[i].post_id →
      (score_batch env₁ g)[i]? = some (applyScoreRec g[i] rec) ∧
      (score_batch env₂ g)[i]? = some (applyScoreRec g[i] rec) := by
  intro i hi rec hmem hid
  have hnodup₂ : (rs₂.map ScoreRec.id).Nodup :=
    ((hperm.map ScoreRec.id).nodup_iff).mp hnodup
  have hmem₂ : rec ∈ rs₂ := hperm.mem_iff.mp hmem
  have f₁ := resultsMapFind_eq rs₁ rec _ hnodup hmem hid
  have f₂ := resultsMapFind_eq rs₂ rec _ hnodup₂ hmem₂ hid
  have hg : g[i]? = some g[i] := List.getElem?_eq_getElem hi
  constructor
  · rw [score_batch_parsed env₁ g r₁ rs₁ h₁ hne₁ hd₁, List.getElem?_map, hg]
    simp [f₁]
  · rw [score_batch_parsed env₂ g r₂ rs₂ h₂ hne₂ hd₂, List.getElem?_map, hg]
    simp [f₂]

/-- Leads used by the C5 witness. -/
def leadC5 (pid : String) : Lead :=
  { post_id := pid, subreddit := "s", author := "a", title := "t",
    body := "b", post_url := "u", message_url := "m" }

/-- Parsed batch records used by the C5 witness. -/
def recC5 (pid : String) (n : Int) : ScoreRec :=
  { id := some pid, score := some n, signal_type := some "HIGH",
    category := some "Speaking Anxiety" }

/-- C5 witness environment returning the records in lead order. -/
def envC5a : InferenceEnv :=
  { configured := true
    respond := fun _ _ => some "R"
    generate := fun _ _ _ => none
    decodeSingle := fun _ => none
    decodeBatch := fun _ => some [recC5 "a" 9, recC5 "b" 4]
    decodeWorthy := fun _ => none }

/-- C5 witness environment returning the same records in reversed order. -/
def envC5b : InferenceEnv :=
  { envC5a with decodeBatch := fun _ => some [recC5 "b" 4, recC5 "a" 9] }

/-- Witness for C5: with the two-record response delivered in either order,
the lead with id `a` receives the `a` record's fields both times. -/
theorem claim_C5_witness :
    (score_batch envC5a [leadC5 "a", leadC5 "b"])[0]? =
      some (applyScoreRec (leadC5 "a") (recC5 "a" 9)) ∧
    (score_batch envC5b [leadC5 "a", leadC5 "b"])[0]? =
      some (applyScoreRec (leadC5 "a") (recC5 "a" 9)) := by
  have h := claim_C5 envC5a envC5b [leadC5 "a", leadC5 "b"] "R" "R"
    [recC5 "a" 9, recC5 "b" 4] [recC5 "b" 4, recC5 "a" 9]
    rfl (by decide) rfl rfl (by decide) rfl
    (List.Perm.swap (recC5 "b" 4) (recC5 "a" 9) [])
    (by decide)
    0 (by decide) (recC5 "a" 9) (by decide) (by decide)
  exact h

/-- `_score_batch` never changes the number of leads in the group. -/
theorem score_batch_length (env : InferenceEnv) (g : List Lead) :
    (score_batch env g).length = g.length := by
  rw [score_batch]
  repeat' split
  all_goals simp

/-- The fuelled chunker concatenates back to the input list whenever the
fuel covers the list and the group size is positive. -/
theorem chunkListAux_flatten (bs : Nat) (hbs : 0 < bs) :
    ∀ (fuel : Nat) (xs : List Lead), xs.length ≤ fuel →
      (chunkListAux bs fuel xs).flatten = xs := by
  intro fuel
  induction fuel with
  | zero =>
    intro xs h
    cases xs with
    | nil => simp [chunkListAux]
    | cons x l => simp at h
  | succ n ih =>
    intro xs h
    cases xs with
    | nil => simp [chunkListAux]
    | cons x l =>
      rw [chunkListAux, List.flatten_cons, ih]
      · exact List.take_append_drop bs (x :: l)
      · rw [List.length_drop]
        simp only [List.length_cons] at h ⊢
        omega

/-- The groups visited by `score_leads` cover the input exactly once. -/
theorem chunkList_flatten (bs : Nat) (hbs : 0 < bs) (xs : List Lead) :
    (chunkList bs xs).flatten = xs := by
  rw [chunkList, if_neg (Nat.pos_iff_ne_zero.mp hbs)]
  exact chunkListAux_flatten bs hbs xs.length xs le_rfl

/-- C6: first conjunct — when a group's response is absent, empty, or fails
to parse as the expected array, `_score_batch` scores every candidate of
that group individually via the single-item path.  Second conjunct — no
group-level failure ever drops a lead or aborts the run: `score_leads`
always returns exactly one (total) result per input lead, for any
environment. -/
theorem claim_C6 :
    (∀ (env : InferenceEnv) (g : List Lead),
      (isFalsy (env.respond (batchPrompt g) 2000) = true ∨
       ∃ r, env.respond (batchPrompt g) 2000 = some r ∧ r ≠ "" ∧
         env.decodeBatch r = none) →
      score_batch env g = g.map (score_lead env)) ∧
    (∀ (env : InferenceEnv) (bs : Nat) (ub : Bool) (leads : List Lead),
      0 < bs → (score_leads env bs ub leads).length = leads.length) := by
  constructor
  · intro env g h
    rcases g with _ | ⟨l, ls⟩
    · simp [score_batch]
    · rcases h with h | ⟨r, hr, hne, hd⟩
      · rcases hresp : env.respond (batchPrompt (l :: ls)) 2000 with _ | s
        · simp [score_batch, hresp]
        · rw [hresp] at h
          have hs : s = "" := by simpa [isFalsy] using h
          simp [score_batch, hresp, hs]
      · simp [score_batch, hr, hne, hd]
  · intro env bs ub leads hbs
    rw [score_leads]
    split
    · rfl
    · split
      · simp_all [List.isEmpty_iff]
      · split
        · have hlen : ∀ gs : List (List Lead),
              ((gs.map (score_batch env)).flatten).length = gs.flatten.length := by
            intro gs
            induction gs with
            | nil => rfl
            | cons g gs ih => simp [score_batch_length, ih]
          rw [hlen, chunkList_flatten bs hbs]
        · simp

/-- Environment for the C6 witness: the batch call fails at the adapter
while single-item calls succeed. -/
def envC6 : InferenceEnv :=
  { configured := true
    respond := fun p n => if n = 2000 then none else some p
    generate := fun _ _ _ => none
    decodeSingle := fun _ => some { score := some 8, signal_type := some "HIGH",
                                    category := some "Practice Gap" }
    decodeBatch := fun _ => none
    decodeWorthy := fun _ => none }

/-- Lead used by the C6 witness. -/
def leadC6 : Lead :=
  { post_id := "c6", subreddit := "s", author := "a", title := "t",
    body := "b", post_url := "u", message_url := "m" }

/-- Witness for C6: with the batch call failing, the group is scored by the
single-item path (which here does assign a score), and `score_leads`
returns one result per lead. -/
theorem claim_C6_witness :
    score_batch envC6 [leadC6] = [score_lead envC6 leadC6] ∧
    (score_leads envC6 1 true [leadC6, leadC6]).length = 2 := by
  constructor
  · exact claim_C6.1 envC6 [leadC6] (Or.inl rfl)
  · exact claim_C6.2 envC6 1 true [leadC6, leadC6] (by decide)

/-- C10: if a batch response parses as an array but contains no record
bearing a given lead's identifier, that lead is returned with all of its
fields unchanged (frame property) — in particular no single-item fallback
result is substituted for it. -/
theorem claim_C10 (env : InferenceEnv) (g : List Lead) (r : String)
    (rs : List ScoreRec)
    (hresp : env.respond (batchPrompt g) 2000 = some r) (hne : r ≠ "")
    (hdec : env.decodeBatch r = some rs)
    (i : Nat) (hi : i < g.length)
    (hmiss : resultsMapFind rs g[i].post_id = none) :
    (score_batch env g)[i]? = some g[i] := by
  have hg : g[i]? = some g[i] := List.getElem?_eq_getElem hi
  rw [score_batch_parsed env g r rs hresp hne hdec, List.getElem?_map, hg]
  simp [hmiss]

/-- Environment for the C10 witness: the batch response parses to an array
whose only record bears a different id, while a single-item call would
assign a score — so an unchanged lead shows that no fallback was made. -/
def envC10 : InferenceEnv :=
  { configured := true
    respond := fun _ _ => some "x"
    generate := fun _ _ _ => none
    decodeSingle := fun _ => some { score := some 9, signal_type := some "HIGH",
                                    category := some "App Fatigue" }
    decodeBatch := fun _ => some [{ id := some "other", score := some 2,
                                    signal_type := some "LOW",
                                    category := some "General Learning" }]
    decodeWorthy := fun _ => none }

/-- Lead used by the C10 witness. -/
def leadC10 : Lead :=
  { post_id := "c10", subreddit := "s", author := "a", title := "t",
    body := "b", post_url := "u", message_url := "m" }

/-- Witness for C10: the lead whose id is missing from the parsed array
passes through unchanged, although the single-item path would have changed
it — no fallback call was applied to it. -/
theorem claim_C10_witness :
    (score_batch envC10 [leadC10])[0]? = some leadC10 ∧
    score_lead envC10 leadC10 ≠ leadC10 := by
  constructor
  · exact claim_C10 envC10 [leadC10] "x"
      [{ id := some "other", score := some 2, signal_type := some "LOW",
         category := some "General Learning" }]
      rfl (by decide) rfl 0 (by decide) (by decide)
  · decide

/-! ### C7: worthiness failure path -/

/-- C7: a worthiness failure never drops a candidate.  Conjuncts one to
three: each failure mode of `evaluate_comment_worthy` — client not
configured, adapter failure (no or empty response), JSON parse error —
resolves to `worthy = true` with a reason explaining the default.  Fourth
conjunct: inside `generate_responses` with the worthiness gate enabled,
whenever the evaluation resolves worthy (as every failure does), the lead
comes back with its flag and reason recorded and with both the public and
the DM draft attempted.  Fifth conjunct: `generate_responses` always
returns the candidate itself (same identifier) — never drops it. -/
theorem claim_C7 :
    (∀ (env : InferenceEnv) (lead : Lead), env.configured = false →
      evaluate_comment_worthy env lead =
        (true, "Skipped evaluation - API not configured")) ∧
    (∀ (env : InferenceEnv) (lead : Lead), env.configured = true →
      isFalsy (env.respond (worthyPrompt lead) 200) = true →
      evaluate_comment_worthy env lead =
        (true, "Evaluation failed - defaulting to worthy")) ∧
    (∀ (env : InferenceEnv) (lead : Lead) (r : String), env.configured = true →
      env.respond (worthyPrompt lead) 200 = some r → r ≠ "" →
      env.decodeWorthy r = none →
      evaluate_comment_worthy env lead =
        (true, "Parse error - defaulting to worthy")) ∧
    (∀ (env : InferenceEnv) (cfg : GeneratorConfig) (lead : Lead),
      env.configured = true → cfg.require_comment_worthy = true →
      (evaluate_comment_worthy env lead).1 = true →
      generate_responses env cfg lead =
        { lead with
          comment_worthy := some true
          comment_worthy_reason := some (evaluate_comment_worthy env lead).2
          public_draft := generate_public_draft env cfg lead
          dm_draft := generate_dm_draft env cfg lead }) ∧
    (∀ (env : InferenceEnv) (cfg : GeneratorConfig) (lead : Lead),
      (generate_responses env cfg lead).post_id = lead.post_id) := by
  refine ⟨?_, ?_, ?_, ?_, ?_⟩
  · intro env lead h
    simp [evaluate_comment_worthy, h]
  · intro env lead hc h
    rcases hresp : env.respond (worthyPrompt lead) 200 with _ | s
    · simp [evaluate_comment_worthy, hc, hresp]
    · rw [hresp] at h
      have hs : s = "" := by simpa [isFalsy] using h
      simp [evaluate_comment_worthy, hc, hresp, hs]
  · intro env lead r hc hr hne hd
    simp [evaluate_comment_worthy, hc, hr, hne, hd]
  · intro env cfg lead hc hreq hw
    rcases hev : evaluate_comment_worthy env lead with ⟨worthy, reason⟩
    rw [hev] at hw
    simp only at hw
    subst hw
    rw [generate_responses]
    simp [hc, hreq, hev]
    exact ⟨rfl, rfl⟩
  · intro env cfg lead
    rw [generate_responses]
    split
    · rfl
    · rcases hw : evaluate_comment_worthy env lead with ⟨worthy, reason⟩
      rcases worthy <;> rcases hreq : cfg.require_comment_worthy <;>
        simp [hw, hreq]

/-- Environment for the C7 witness: configured, but the worthiness call
fails at the adapter; the draft calls succeed. -/
def envC7 : InferenceEnv :=
  { configured := true
    respond := fun _ _ => none
    generate := fun _ _ _ => some "draft text"
    decodeSingle := fun _ => none
    decodeBatch := fun _ => none
    decodeWorthy := fun _ => none }

/-- Lead used by the C7 witness. -/
def leadC7 : Lead :=
  { post_id := "c7", subreddit := "s", author := "a", title := "t",
    body := "b", post_url := "u", message_url := "m" }

/-- Witness for C7: with the worthiness call failing at the adapter, the
flag resolves to true with the explanatory reason, and both drafts are
attempted (and here succeed). -/
theorem claim_C7_witness :
    evaluate_comment_worthy envC7 leadC7 =
      (true, "Evaluation failed - defaulting to worthy") ∧
    generate_responses envC7
        { response_model := "gemini-2.5-flash", require_comment_worthy := true }
        leadC7 =
      { leadC7 with
        comment_worthy := some true
        comment_worthy_reason := some "Evaluation failed - defaulting to worthy"
        public_draft := some "draft text"
        dm_draft := some "draft text" } := by
  have h1 := claim_C7.2.1 envC7 leadC7 rfl rfl
  refine ⟨h1, ?_⟩
  have h4 := claim_C7.2.2.2.1 envC7
    { response_model := "gemini-2.5-flash", require_comment_worthy := true }
    leadC7 rfl rfl (by rw [h1])
  rw [h4, h1]
  rfl

/-! ### C8: JSON extraction in `generate_json` -/

/-- Index of the first opening-bracket character, if any. -/
def firstOpenIdx : List Char → Option Nat
  | [] => none
  | c :: rest => if openBr c then some 0 else (firstOpenIdx rest).map (· + 1)

/-- Characterization of the greedy bracket search: whenever an opening
bracket (at the first such index `i`) is followed by at least one closing
bracket (the last one sitting at index `j`), the captured group runs from
`i` all the way to `j` — the *last* closing bracket of the text, not the
first balancing one. -/
theorem greedySearch_pos :
    ∀ (cs : List Char) (i j : Nat), firstOpenIdx cs = some i →
      lastCloseIdx cs = some j → i < j →
      greedySearch cs = some ((cs.drop i).take (j - i + 1)) := by
  intro cs
  induction cs with
  | nil => intro i j hi _ _; simp [firstOpenIdx] at hi
  | cons c rest ih =>
    intro i j hi hj hij
    by_cases hc : openBr c
    · rw [firstOpenIdx, if_pos hc] at hi
      have hi0 : i = 0 := by simpa using hi.symm
      subst hi0
      rcases hrest : lastCloseIdx rest with _ | j'
      · by_cases hcc : closeBr c
        · have hj0 : j = 0 := by
            simp [lastCloseIdx, hrest, hcc] at hj
            omega
          omega
        · simp [lastCloseIdx, hrest, hcc] at hj
      · have hjj : j = j' + 1 := by
          simp [lastCloseIdx, hrest] at hj
          omega
        subst hjj
        rw [greedySearch, greedyMatchAt, if_pos hc, hrest]
        simp
    · rw [firstOpenIdx, if_neg hc] at hi
      rcases hrest0 : firstOpenIdx rest with _ | i'
      · rw [hrest0] at hi; cases hi
      · rw [hrest0] at hi
        have hii : i = i' + 1 := by simpa using hi.symm
        subst hii
        rcases hrest : lastCloseIdx rest with _ | j'
        · by_cases hcc : closeBr c
          · have hj0 : j = 0 := by
              simp [lastCloseIdx, hrest, hcc] at hj
              omega
            omega
          · simp [lastCloseIdx, hrest, hcc] at hj
        · have hjj : j = j' + 1 := by
            simp [lastCloseIdx, hrest] at hj
            omega
          subst hjj
          have hij' : i' < j' := by omega
          rw [greedySearch, greedyMatchAt, if_neg hc]
          rw [ih i' j' hrest0 hrest hij']
          simp [Nat.succ_sub_succ]

/-- Counterexample to C8 as stated: on `"a {1} b {2}"` (no code fence, not
starting with a bracket) the extraction returns the span from the first
opening bracket to the *last* closing bracket, `"{1} b {2}"`, which is not
the first balanced span `"{1}"`. -/
theorem claim_C8_cex :
    generate_json (some "a \x7b1\x7d b \x7b2\x7d") =
      some "\x7b1\x7d b \x7b2\x7d" ∧
    specFirstBalancedSpan "a \x7b1\x7d b \x7b2\x7d" = some "\x7b1\x7d" ∧
    ("\x7b1\x7d b \x7b2\x7d" : String) ≠ "\x7b1\x7d" := by
  decide

/-- C8 as amended: for every non-empty response, `generate_json` strips the
text and (first conjunct) returns it as is when it already begins with `{`
or `[`; otherwise (third conjunct) it prefers the span captured by the
fenced-code-block pattern when one matches; otherwise (second conjunct) it
returns the span from the *first opening bracket* to the *last closing
bracket* of the text — a greedy span, not the first balanced one. -/
theorem claim_C8 :
    (∀ s : String, s ≠ "" →
      (pyStartsWith (pyTrim s) "\x7b" || pyStartsWith (pyTrim s) "[") = true →
      generate_json (some s) = some (pyTrim s)) ∧
    (∀ (s : String) (i j : Nat), s ≠ "" →
      (pyStartsWith (pyTrim s) "\x7b" || pyStartsWith (pyTrim s) "[") = false →
      fencedSearch (pyTrim s).data = none →
      firstOpenIdx (pyTrim s).data = some i →
      lastCloseIdx (pyTrim s).data = some j → i < j →
      generate_json (some s) =
        some (String.mk (((pyTrim s).data.drop i).take (j - i + 1)))) ∧
    (∀ (s : String) (g : List Char), s ≠ "" →
      (pyStartsWith (pyTrim s) "\x7b" || pyStartsWith (pyTrim s) "[") = false →
      fencedSearch (pyTrim s).data = some g →
      generate_json (some s) = some (String.mk g)) := by
  refine ⟨?_, ?_, ?_⟩
  · intro s hne hstart
    simp [generate_json, hne, hstart]
  · intro s i j hne hstart hfen hfirst hlast hij
    simp [generate_json, hne, hstart, hfen,
      greedySearch_pos (pyTrim s).data i j hfirst hlast hij]
  · intro s g hne hstart hfen
    simp [generate_json, hne, hstart, hfen]

/-- Witness for the amended C8: a response already starting with `[` is
returned stripped, and the counterexample text yields the greedy
first-opener-to-last-closer span. -/
theorem claim_C8_witness :
    generate_json (some "[1, 2]") = some "[1, 2]" ∧
    generate_json (some "a \x7b1\x7d b \x7b2\x7d") =
      some "\x7b1\x7d b \x7b2\x7d" := by
  constructor
  · exact claim_C8.1 "[1, 2]" (by decide) (by decide)
  · have h := claim_C8.2.1 "a \x7b1\x7d b \x7b2\x7d" 2 10 (by decide)
      (by decide) (by decide) (by decide) (by decide) (by decide)
    exact h

/-! ### C9: grouping-independence of scoring -/

/-- Lead used by the C9 counterexample and witness. -/
def leadC9 (pid : String) : Lead :=
  { post_id := pid, subreddit := "s", author := "a", title := "t",
    body := "b", post_url := "u", message_url := "m" }

/-- A fixed, deterministic function from prompt to response that answers
batch-shaped prompts (recognised by the batch template's opening words)
with an array scoring every id 3, and single-item prompts with an object
scoring 9. -/
def envC9 : InferenceEnv :=
  { configured := true
    respond := fun p _ =>
      if pyStartsWith p "You are analyzing multiple" then some "B" else some "S"
    generate := fun _ _ _ => none
    decodeSingle := fun _ => some { score := some 9, signal_type := some "HIGH",
                                    category := some "Speaking Anxiety" }
    decodeBatch := fun _ => some
      [{ id := some "a", score := some 3, signal_type := some "LOW",
         category := some "General Learning" },
       { id := some "b", score := some 3, signal_type := some "LOW",
         category := some "General Learning" }]
    decodeWorthy := fun _ => none }

/-- Counterexample to C9 as stated: under one fixed deterministic function
from prompt to response, scoring the same two leads as one batch of two
versus two single-item calls yields different final scores (3 versus 9 for
every identifier).  Batch and single groupings build different prompts, so
determinism of the backend alone does not make groupings agree. -/
theorem claim_C9_cex :
    (score_leads envC9 5 true [leadC9 "a", leadC9 "b"]).map (·.signal_score) =
      [some 3, some 3] ∧
    (score_leads envC9 5 false [leadC9 "a", leadC9 "b"]).map (·.signal_score) =
      [some 9, some 9] := by
  decide

/-- Chunked batch scoring agrees with the pointwise update whenever every
(nonempty, sublist) group scores to its pointwise update. -/
theorem chunked_score_batch_map (env : InferenceEnv) (leads : List Lead)
    (setF : Lead → Lead) (bs : Nat) (hbs : 0 < bs)
    (hbatch : ∀ g : List Lead, g.Sublist leads → g ≠ [] →
      score_batch env g = g.map setF) :
    ∀ (fuel : Nat) (xs : List Lead), xs.Sublist leads → xs.length ≤ fuel →
      ((chunkListAux bs fuel xs).map (score_batch env)).flatten = xs.map setF := by
  intro fuel
  induction fuel with
  | zero =>
    intro xs hsub hlen
    rcases xs with _ | ⟨x, l⟩
    · simp [chunkListAux]
    · simp at hlen
  | succ n ih =>
    intro xs hsub hlen
    rcases xs with _ | ⟨x, l⟩
    · simp [chunkListAux]
    · rw [chunkListAux, List.map_cons, List.flatten_cons]
      have htake : ((x :: l).take bs).Sublist leads :=
        (List.take_sublist bs (x :: l)).trans hsub
      have hne : (x :: l).take bs ≠ [] := by
        obtain ⟨k, rfl⟩ := Nat.exists_eq_succ_of_ne_zero (Nat.pos_iff_ne_zero.mp hbs)
        simp [List.take_succ_cons]
      rw [hbatch _ htake hne,
        ih ((x :: l).drop bs) ((List.drop_sublist bs (x :: l)).trans hsub)
          (by rw [List.length_drop]; simp only [List.length_cons] at hlen ⊢; omega),
        ← List.map_append, List.take_append_drop]

/-- C9 as amended: grouping-independence holds for a backend that is
consistent *per identifier* — one whose batch responses carry, for each lead
of the group, a record assigning that identifier fixed score/tier/category
values, and whose single-item responses assign the same values.  Under that
hypothesis `score_leads` returns, for every positive batch size and with
batching either enabled or disabled, the same result: each lead updated
with its identifier's fixed values.  (The claim's weaker hypothesis — a
deterministic function from prompt to response — is refuted by
`claim_C9_cex`.) -/
theorem claim_C9 (env : InferenceEnv) (leads : List Lead)
    (fScore : String → Int) (fType fCat : String → String)
    (hcfg : env.configured = true)
    (hb : ∀ g : List Lead, g.Sublist leads → g ≠ [] →
      ∃ r rs, env.respond (batchPrompt g) 2000 = some r ∧ r ≠ "" ∧
        env.decodeBatch r = some rs ∧
        ∀ l ∈ g, ∃ rec, resultsMapFind rs l.post_id = some rec ∧
          rec.score.getD 5 = fScore l.post_id ∧
          rec.signal_type.getD "MEDIUM" = fType l.post_id ∧
          rec.category.getD "General Learning" = fCat l.post_id)
    (hs : ∀ l ∈ leads, ∃ r rec,
      env.respond (scoringPrompt l) 1024 = some r ∧ r ≠ "" ∧
      env.decodeSingle r = some rec ∧
      rec.score.getD 5 = fScore l.post_id ∧
      rec.signal_type.getD "MEDIUM" = fType l.post_id ∧
      rec.category.getD "General Learning" = fCat l.post_id) :
    ∀ (bs : Nat) (ub : Bool), 0 < bs →
      score_leads env bs ub leads = leads.map (fun l =>
        { l with signal_score := some (fScore l.post_id)
                 signal_type := some (fType l.post_id)
                 category := some (fCat l.post_id) }) := by
  intro bs ub hbs
  have hsingle : ∀ l ∈ leads, score_lead env l =
      { l with signal_score := some (fScore l.post_id)
               signal_type := some (fType l.post_id)
               category := some (fCat l.post_id) } := by
    intro l hl
    obtain ⟨r, rec, hr, hne, hd, hsc, hty, hca⟩ := hs l hl
    rw [score_lead]
    simp only [hcfg, Bool.not_true, Bool.false_eq_true, if_false, hr, hne, hd]
    simp only [applyScoreRec, hsc, hty, hca]
  have hbatch : ∀ g : List Lead, g.Sublist leads → g ≠ [] →
      score_batch env g = g.map (fun l =>
        { l with signal_score := some (fScore l.post_id)
                 signal_type := some (fType l.post_id)
                 category := some (fCat l.post_id) }) := by
    intro g hsub hne
    obtain ⟨r, rs, hr, hrne, hd, hrec⟩ := hb g hsub hne
    rw [score_batch_parsed env g r rs hr hrne hd]
    apply List.map_congr_left
    intro l hl
    obtain ⟨rec, hfind, hsc, hty, hca⟩ := hrec l hl
    rw [hfind]
    simp only [applyScoreRec, hsc, hty, hca]
  rw [score_leads]
  simp only [hcfg, Bool.not_true, Bool.false_eq_true, if_false]
  by_cases hempty : leads.isEmpty
  · have : leads = [] := List.isEmpty_iff.mp hempty
    subst this
    simp
  · rw [if_neg hempty]
    by_cases hub : (ub && leads.length > 1) = true
    · rw [if_pos hub, chunkList, if_neg (Nat.pos_iff_ne_zero.mp hbs)]
      exact chunked_score_batch_map env leads _ bs hbs hbatch leads.length
        leads (List.Sublist.refl leads) le_rfl
    · rw [if_neg hub]
      exact List.map_congr_left hsingle

/-- A per-identifier-consistent environment for the C9 witness: batch
responses carry a record for each of the ids `a` and `b`, and single
responses carry the same fixed values. -/
def envC9w : InferenceEnv :=
  { configured := true
    respond := fun _ _ => some "R"
    generate := fun _ _ _ => none
    decodeSingle := fun _ => some { score := some 8, signal_type := some "HIGH",
                                    category := some "Immersion Prep" }
    decodeBatch := fun _ => some
      [{ id := some "a", score := some 8, signal_type := some "HIGH",
         category := some "Immersion Prep" },
       { id := some "b", score := some 8, signal_type := some "HIGH",
         category := some "Immersion Prep" }]
    decodeWorthy := fun _ => none }

/-- Witness for the amended C9: under the consistent mock backend, batching
with group size 1 and fully individual scoring both send every lead to the
same scored values. -/
theorem claim_C9_witness :
    score_leads envC9w 1 true [leadC9 "a", leadC9 "b"] =
      [{ leadC9 "a" with signal_score := some 8, signal_type := some "HIGH",
                         category := some "Immersion Prep" },
       { leadC9 "b" with signal_score := some 8, signal_type := some "HIGH",
                         category := some "Immersion Prep" }] ∧
    score_leads envC9w 1 false [leadC9 "a", leadC9 "b"] =
      [{ leadC9 "a" with signal_score := some 8, signal_type := some "HIGH",
                         category := some "Immersion Prep" },
       { leadC9 "b" with signal_score := some 8, signal_type := some "HIGH",
                         category := some "Immersion Prep" }] := by
  have h := claim_C9 envC9w [leadC9 "a", leadC9 "b"]
    (fun _ => 8) (fun _ => "HIGH") (fun _ => "Immersion Prep") rfl
    (by
      intro g hg hne
      refine ⟨"R",
        [{ id := some "a", score := some 8, signal_type := some "HIGH",
           category := some "Immersion Prep" },
         { id := some "b", score := some 8, signal_type := some "HIGH",
           category := some "Immersion Prep" }],
        rfl, by decide, rfl, ?_⟩
      intro l hl
      rcases List.mem_cons.mp (hg.subset hl) with h1 | h1
      · subst h1
        exact ⟨{ id := some "a", score := some 8, signal_type := some "HIGH",
                 category := some "Immersion Prep" },
               by decide, by decide, by decide, by decide⟩
      · have h2 : l = leadC9 "b" := List.mem_singleton.mp h1
        subst h2
        exact ⟨{ id := some "b", score := some 8, signal_type := some "HIGH",
                 category := some "Immersion Prep" },
               by decide, by decide, by decide, by decide⟩)
    (by
      intro l hl
      exact ⟨"R", { id := none, score := some 8, signal_type := some "HIGH",
                    category := some "Immersion Prep" },
             rfl, by decide, rfl, rfl, rfl, rfl⟩)
  exact ⟨h 1 true (by decide), h 1 false (by decide)⟩

end Scout
